import Mathlib

/-!
# CHIP-8 browser host (`src/index.js`)

A shallow embedding of the host script that drives the CHIP-8 emulator.
The script is event driven: every listener is modelled as a function from the
host state (and the data carried by the event) to the new host state and the
ordered list of calls it makes on its environment (the emulator's exported
functions `Emu*`, the canvas context, `window`, `alert`, `FileReader`).
-/

namespace Chip8Host

/-! ## Constants (lines 13-16) -/

/-- Line 13: `const WIDTH = 64;`. -/
def WIDTH : Nat := 64

/-- Line 14: `const HEIGHT = 32;`. -/
def HEIGHT : Nat := 32

/-- Line 15: `const SCALE = 15;`. -/
def SCALE : Nat := 15

/-- Line 16: `const TICKS_PER_FRAME = 10;`. -/
def TICKS_PER_FRAME : Nat := 10

/-! ## Values exchanged with the environment -/

/-- One octet. -/
abbrev Byte := Fin 256

/-- A JavaScript `ArrayBuffer`: a fixed sequence of bytes (`fr.result`). -/
structure ArrayBuffer where
  bytes : List Byte
deriving DecidableEq, Repr

/-- The `byteLength` of an `ArrayBuffer`. -/
def ArrayBuffer.byteLength (b : ArrayBuffer) : Nat := b.bytes.length

/-- A JavaScript `Uint8Array`: a window of `length` bytes into a buffer,
starting at `byteOffset`. -/
structure Uint8Array where
  buffer : ArrayBuffer
  byteOffset : Nat
  length : Nat
deriving DecidableEq, Repr

/-- The constructor call `new Uint8Array(buffer)` of line 55: a view of the
whole buffer. -/
def Uint8Array.ofBuffer (buffer : ArrayBuffer) : Uint8Array :=
  ⟨buffer, 0, buffer.byteLength⟩

/-- Indexing `rom[i]`: `none` stands for `undefined` (index out of range). -/
def Uint8Array.get? (a : Uint8Array) (i : Nat) : Option Byte :=
  if i < a.length then a.buffer.bytes[a.byteOffset + i]? else none

/-- The elements of a typed array, in order. -/
def Uint8Array.toList (a : Uint8Array) : List Byte :=
  (a.buffer.bytes.drop a.byteOffset).take a.length

/-- A `File` chosen in the file input; `contents` is what a successful
`readAsArrayBuffer` delivers in `fr.result`. -/
structure File where
  name : String
  contents : ArrayBuffer
deriving DecidableEq, Repr

/-- A JavaScript value that may be handed to the emulator as a key:
a string (such as `evt.key`) or a number. -/
inductive JSVal where
  | str (s : String)
  | num (n : Int)
deriving DecidableEq, Repr

/-- Function values the script hands to the browser to be called later. -/
inductive Callback where
  /-- The arrow function of lines 85-87, whose body is `mainloop();`. -/
  | frame
deriving DecidableEq, Repr

/-- The calls the host makes on its environment, in the order made. -/
inductive Effect where
  /-- Lines 31 and 35: `EmuKeypress(key, pressed)`. -/
  | EmuKeypress (key : JSVal) (pressed : Bool)
  /-- Line 56: `EmuReset()`. -/
  | EmuReset
  /-- Line 57: `EmuLoad(rom)`. -/
  | EmuLoad (rom : Uint8Array)
  /-- Line 70: `EmuTick()`. -/
  | EmuTick
  /-- Line 83: `EmuDrawScreen(scale)`. -/
  | EmuDrawScreen (scale : Nat)
  /-- The emulator's timer-decrement operation (`decrement_timers()` in the
  interface table; `chip8.tick_timers()` in the comment of line 74). It is part
  of the alphabet of emulator calls; no statement of the script issues it. -/
  | tick_timers
  /-- Line 43: `window.cancelAnimationFrame(handle)`. -/
  | cancelAnimationFrame (handle : Nat)
  /-- Line 85: `window.requestAnimationFrame(cb)`. -/
  | requestAnimationFrame (cb : Callback)
  /-- Line 48: `alert(msg)`. -/
  | alert (msg : String)
  /-- Line 52: `new FileReader()`. -/
  | newFileReader
  /-- Line 60: `fr.readAsArrayBuffer(file)`. -/
  | readAsArrayBuffer (file : File)
  /-- Lines 24, 76, 80: the assignment `ctx.fillStyle = style`. -/
  | setFillStyle (style : String)
  /-- Lines 25, 77: `ctx.fillRect(x, y, w, h)`; `style` is the value of
  `ctx.fillStyle` at the time of the call, the colour the rectangle is
  painted with. -/
  | fillRect (style : String) (x y w h : Nat)
deriving DecidableEq, Repr

/-- Calls on the emulator (the functions exported by the wasm module). -/
def Effect.isEmuCall : Effect → Bool
  | .EmuKeypress _ _ => true
  | .EmuReset => true
  | .EmuLoad _ => true
  | .EmuTick => true
  | .EmuDrawScreen _ => true
  | .tick_timers => true
  | _ => false

/-- Recogniser of `EmuTick()`. -/
def Effect.isTick : Effect → Bool
  | .EmuTick => true
  | _ => false

/-- Recogniser of `EmuDrawScreen(_)`. -/
def Effect.isDraw : Effect → Bool
  | .EmuDrawScreen _ => true
  | _ => false

/-- Recogniser of `EmuReset()`. -/
def Effect.isReset : Effect → Bool
  | .EmuReset => true
  | _ => false

/-- Recogniser of `EmuLoad(_)`. -/
def Effect.isLoad : Effect → Bool
  | .EmuLoad _ => true
  | _ => false

/-- Recogniser of the timer-decrement call. -/
def Effect.isTimerDecrement : Effect → Bool
  | .tick_timers => true
  | _ => false

/-- Recogniser of `window.cancelAnimationFrame(_)`. -/
def Effect.isCancel : Effect → Bool
  | .cancelAnimationFrame _ => true
  | _ => false

/-- Recogniser of `window.requestAnimationFrame(_)`. -/
def Effect.isRequestFrame : Effect → Bool
  | .requestAnimationFrame _ => true
  | _ => false

/-- Recogniser of `new FileReader()`. -/
def Effect.isNewFileReader : Effect → Bool
  | .newFileReader => true
  | _ => false

/-- A key index of the 16-key logical layout: an integer in `0..15`. -/
def JSVal.isKeyIndex : JSVal → Bool
  | .num n => decide (0 ≤ n) && decide (n < 16)
  | .str _ => false

/-- The first argument of an `EmuKeypress` call, if the effect is one. -/
def Effect.keyArg? : Effect → Option JSVal
  | .EmuKeypress key _ => some key
  | _ => none

/-- In the trace, no call satisfying `p` is made after a call satisfying `q`:
every `p`-call precedes every `q`-call. -/
def noneAfter (p q : Effect → Bool) : List Effect → Bool
  | [] => true
  | e :: es => (!q e || !es.any p) && noneAfter p q es

/-! ## Host state -/

/-- The mutable state of the page that the script reads or writes. -/
structure Host where
  /-- Line 17: `let anim_frame = 0;`, later the handle returned by
  `requestAnimationFrame`. -/
  anim_frame : Nat
  /-- The property `canvas.width`. -/
  canvasWidth : Nat
  /-- The property `canvas.height`. -/
  canvasHeight : Nat
  /-- The property `ctx.fillStyle`. -/
  fillStyle : String
deriving DecidableEq, Repr

/-- The page before the script runs: a fresh canvas element is 300 by 150
with a black fill style; `anim_frame` is declared as 0 on line 17. -/
def pageDefault : Host := ⟨0, 300, 150, "#000000"⟩

/-- Lines 17-25, the top-level statements: size the canvas and paint it black. -/
def boot (s : Host) : Host × List Effect :=
  let s1 : Host := ⟨0, WIDTH * SCALE, HEIGHT * SCALE, s.fillStyle⟩
  let s2 : Host := ⟨s1.anim_frame, s1.canvasWidth, s1.canvasHeight, "black"⟩
  (s2, [Effect.setFillStyle "black",
        Effect.fillRect s2.fillStyle 0 0 (WIDTH * SCALE) (HEIGHT * SCALE)])

/-! ## Listeners registered by `run` (lines 29-64) -/

/-- Lines 30-32: the `keydown` listener on `document`. -/
def onKeydown (s : Host) (key : String) : Host × List Effect :=
  (s, [Effect.EmuKeypress (JSVal.str key) true])

/-- Lines 34-36: the `keyup` listener on `document`. -/
def onKeyup (s : Host) (key : String) : Host × List Effect :=
  (s, [Effect.EmuKeypress (JSVal.str key) false])

/-- A `FileReader` created on line 52, with the function of lines 53-59
installed as `onload` and a read of `file` started on line 60. -/
structure FileReader where
  file : File
deriving DecidableEq, Repr

/-- Lines 53-59: the `onload` handler of the reader; `result` is `fr.result`. -/
def fr_onload (s : Host) (result : ArrayBuffer) : Host × List Effect :=
  let buffer := result
  let rom := Uint8Array.ofBuffer buffer
  (s, [Effect.EmuReset, Effect.EmuLoad rom])

/-- Lines 40-61: the `change` listener on the file input; `files` is
`evt.target.files`. The third component is the reader left pending, if any. -/
def onChange (s : Host) (files : List File) :
    Host × List Effect × Option FileReader :=
  let stop : List Effect :=
    if s.anim_frame != 0 then [Effect.cancelAnimationFrame s.anim_frame] else []
  match files[0]? with
  | none => (s, stop ++ [Effect.alert "Failed to read file"], none)
  | some file =>
    (s, stop ++ [Effect.newFileReader, Effect.readAsArrayBuffer file],
      some ⟨file⟩)

/-- A `change` event followed by the completion of the read it started (if it
started one): the browser sets `fr.result` to the bytes of the file and calls
the `onload` handler. -/
def changeThenLoad (s : Host) (files : List File) : Host × List Effect :=
  match onChange s files with
  | (s1, t1, none) => (s1, t1)
  | (s1, t1, some fr) =>
    let r := fr_onload s1 fr.file.contents
    (r.1, t1 ++ r.2)

/-! ## The frame function (lines 67-88) -/

/-- Lines 69-71: `for (let i = 0; i < TICKS_PER_FRAME; i++) EmuTick();`,
started at loop counter `i`, appending to the calls made so far. -/
def tickLoop (i : Nat) (trace : List Effect) : List Effect :=
  if i < TICKS_PER_FRAME then tickLoop (i + 1) (trace ++ [Effect.EmuTick])
  else trace
termination_by TICKS_PER_FRAME - i

/-- Lines 67-88: `mainloop()`. `handle` is the value that
`window.requestAnimationFrame` returns to the call of line 85. -/
def mainloop (s : Host) (handle : Nat) : Host × List Effect :=
  let t1 := tickLoop 0 []
  let s1 : Host := ⟨s.anim_frame, s.canvasWidth, s.canvasHeight, "black"⟩
  let t2 := t1 ++ [Effect.setFillStyle "black",
    Effect.fillRect s1.fillStyle 0 0 (WIDTH * SCALE) (HEIGHT * SCALE)]
  let s2 : Host := ⟨s1.anim_frame, s1.canvasWidth, s1.canvasHeight, "white"⟩
  let t3 := t2 ++ [Effect.setFillStyle "white", Effect.EmuDrawScreen SCALE]
  let t4 := t3 ++ [Effect.requestAnimationFrame Callback.frame]
  (⟨handle, s2.canvasWidth, s2.canvasHeight, s2.fillStyle⟩, t4)

/-- The browser calling a function it was handed; `handle` is what the next
`requestAnimationFrame` returns. -/
def Callback.invoke : Callback → Host → Nat → Host × List Effect
  | .frame, s, handle => mainloop s handle

/-! ## Events -/

/-- The DOM events the script listens to. -/
inductive Event where
  | keydown (key : String)
  | keyup (key : String)
  | change (files : List File)
deriving DecidableEq, Repr

/-- Delivery of an event to the listener `run` registered for it. -/
def dispatch (s : Host) : Event → Host × List Effect
  | .keydown key => onKeydown s key
  | .keyup key => onKeyup s key
  | .change files => ((onChange s files).1, (onChange s files).2.1)

/-! ## Helper lemmas -/

theorem tickLoop_eq (i : Nat) (trace : List Effect) :
    tickLoop i trace = trace ++ List.replicate (TICKS_PER_FRAME - i) Effect.EmuTick := by
  generalize hn : TICKS_PER_FRAME - i = n
  induction n generalizing i trace with
  | zero =>
    rw [tickLoop, if_neg (by omega)]
    simp
  | succ n ih =>
    rw [tickLoop, if_pos (by omega), ih (i + 1) _ (by omega)]
    simp [List.replicate_succ]

theorem mainloop_trace (s : Host) (handle : Nat) :
    (mainloop s handle).2 =
      List.replicate 10 Effect.EmuTick ++
        [Effect.setFillStyle "black", Effect.fillRect "black" 0 0 960 480,
         Effect.setFillStyle "white", Effect.EmuDrawScreen 15,
         Effect.requestAnimationFrame Callback.frame] := by
  simp [mainloop, tickLoop_eq, TICKS_PER_FRAME, WIDTH, HEIGHT, SCALE]

theorem noneAfter_iff (p q : Effect → Bool) (tr : List Effect) :
    noneAfter p q tr = true ↔
      ∀ (i j : Nat) (a b : Effect), i < j → tr[i]? = some a → tr[j]? = some b → q a = true → p b = false := by
  induction tr with
  | nil => simp [noneAfter]
  | cons e es ih =>
    simp only [noneAfter, Bool.and_eq_true, Bool.or_eq_true, Bool.not_eq_true', ih]
    constructor
    · rintro ⟨h1, h2⟩ i j a b hij ha hb hq
      cases j with
      | zero => omega
      | succ j =>
        cases i with
        | zero =>
          simp only [List.getElem?_cons_zero, Option.some.injEq] at ha
          simp only [List.getElem?_cons_succ] at hb
          subst ha
          rcases h1 with h1 | h1
          · simp [hq] at h1
          · have hmem : b ∈ es := List.getElem?_mem hb
            by_contra hp
            have : es.any p = true := List.any_eq_true.2 ⟨b, hmem, by simpa using hp⟩
            simp [this] at h1
        | succ i =>
          simp only [List.getElem?_cons_succ] at ha hb
          exact h2 i j a b (by omega) ha hb hq
    · intro h
      refine ⟨?_, ?_⟩
      · by_cases hq : q e = true
        · right
          by_contra hany
          simp only [Bool.not_eq_false] at hany
          obtain ⟨b, hmem, hp⟩ := List.any_eq_true.1 hany
          obtain ⟨j, hj⟩ := List.getElem?_of_mem hmem
          have := h 0 (j + 1) e b (by omega) (by simp) (by simpa using hj) hq
          simp [hp] at this
        · left
          simpa using hq
      · intro i j a b hij ha hb hq
        exact h (i + 1) (j + 1) a b (by omega) (by simpa using ha) (by simpa using hb) hq

/-! ## Claims -/

/-- C1: for every file buffer, the `onload` handler of the reader makes exactly
the emulator calls `EmuReset()` then `EmuLoad(rom)`, in that order and nothing
else, where `rom` is the typed array over the buffer read: same length, same
bytes at every index; no reset comes after the load. -/
theorem C1_onload_reset_then_load (s : Host) (buffer : ArrayBuffer) :
    (fr_onload s buffer).2 =
        [Effect.EmuReset, Effect.EmuLoad (Uint8Array.ofBuffer buffer)] ∧
      (fr_onload s buffer).2.filter Effect.isEmuCall = (fr_onload s buffer).2 ∧
      (Uint8Array.ofBuffer buffer).length = buffer.bytes.length ∧
      (Uint8Array.ofBuffer buffer).toList = buffer.bytes ∧
      (∀ i : Nat, (Uint8Array.ofBuffer buffer).get? i = buffer.bytes[i]?) ∧
      noneAfter Effect.isReset Effect.isLoad (fr_onload s buffer).2 = true := by
  refine ⟨rfl, ?_, rfl, ?_, ?_, ?_⟩
  · simp [fr_onload, Effect.isEmuCall]
  · simp [Uint8Array.toList, Uint8Array.ofBuffer, ArrayBuffer.byteLength]
  · intro i
    simp only [Uint8Array.get?, Uint8Array.ofBuffer, ArrayBuffer.byteLength, Nat.zero_add]
    split
    · rfl
    · rename_i h
      exact (List.getElem?_eq_none (by omega)).symm
  · simp [fr_onload, noneAfter, Effect.isReset, Effect.isLoad]

/-- C2 (evaluation of the code): after the page has booted, the `onload`
handler run on a two-byte ROM makes the calls `EmuReset()` and `EmuLoad(rom)`
only: it issues no `EmuTick()`, requests no animation frame, and leaves
`anim_frame` at 0, so `mainloop` is not started. -/
theorem C2_onload_does_not_start_mainloop :
    (fr_onload (boot pageDefault).1 ⟨[0x00, 0xE0]⟩).2 =
        [Effect.EmuReset, Effect.EmuLoad (Uint8Array.ofBuffer ⟨[0x00, 0xE0]⟩)] ∧
      (fr_onload (boot pageDefault).1 ⟨[0x00, 0xE0]⟩).2.countP Effect.isTick = 0 ∧
      (fr_onload (boot pageDefault).1 ⟨[0x00, 0xE0]⟩).2.countP Effect.isRequestFrame = 0 ∧
      (fr_onload (boot pageDefault).1 ⟨[0x00, 0xE0]⟩).1.anim_frame = 0 := by
  refine ⟨rfl, ?_, ?_, rfl⟩ <;> decide

/-- C3: every invocation of `mainloop` calls `EmuTick()` exactly
`TICKS_PER_FRAME` = 10 times, and no `EmuTick()` comes after the frame's single
`EmuDrawScreen` call. -/
theorem C3_ticks_per_frame (s : Host) (handle : Nat) :
    TICKS_PER_FRAME = 10 ∧
      (mainloop s handle).2.countP Effect.isTick = TICKS_PER_FRAME ∧
      (mainloop s handle).2.count Effect.EmuTick = 10 ∧
      (mainloop s handle).2.countP Effect.isDraw = 1 ∧
      noneAfter Effect.isTick Effect.isDraw (mainloop s handle).2 = true := by
  rw [mainloop_trace]
  refine ⟨rfl, ?_, ?_, ?_, ?_⟩ <;> decide

/-- C4 (counterexample): the frame run right after boot, with handle 1, does
not call the timer-decrement operation exactly once: it never calls it. -/
theorem C4_counterexample :
    ¬ ((mainloop (boot pageDefault).1 1).2.countP Effect.isTimerDecrement = 1) ∧
      (mainloop (boot pageDefault).1 1).2.countP Effect.isTimerDecrement = 0 := by
  rw [mainloop_trace]
  decide

/-- C4 (amended): every invocation of `mainloop` makes no timer-decrement call;
its emulator calls are exactly the `TICKS_PER_FRAME` calls of `EmuTick()`
followed by one `EmuDrawScreen(SCALE)`. -/
theorem C4_no_timer_decrement_in_frame (s : Host) (handle : Nat) :
    (mainloop s handle).2.countP Effect.isTimerDecrement = 0 ∧
      (mainloop s handle).2.filter Effect.isEmuCall =
        List.replicate TICKS_PER_FRAME Effect.EmuTick ++ [Effect.EmuDrawScreen SCALE] := by
  rw [mainloop_trace]
  refine ⟨?_, ?_⟩ <;> decide

/-- C5 (counterexample): on a `keydown` of the Enter key the host calls
`EmuKeypress("Enter", true)`; the value passed is the string `"Enter"`, which
is not a key index in `0..15`. -/
theorem C5_counterexample :
    (dispatch (boot pageDefault).1 (Event.keydown "Enter")).2 =
        [Effect.EmuKeypress (JSVal.str "Enter") true] ∧
      (dispatch (boot pageDefault).1 (Event.keydown "Enter")).2.filterMap Effect.keyArg? =
        [JSVal.str "Enter"] ∧
      (JSVal.str "Enter").isKeyIndex = false ∧
      ¬ (∀ v ∈ (dispatch (boot pageDefault).1 (Event.keydown "Enter")).2.filterMap
          Effect.keyArg?, v.isKeyIndex = true) := by
  refine ⟨rfl, rfl, rfl, ?_⟩
  intro h
  have h1 := h (JSVal.str "Enter") (by simp [dispatch, onKeydown, Effect.keyArg?])
  simp [JSVal.isKeyIndex] at h1

/-- C5 (amended): for every `keydown` or `keyup` event, the only value the host
passes as key to the emulator's key-state call is the string `evt.key` of the
event, as it is: the host does no translation to a key index. -/
theorem C5_key_passed_untranslated (s : Host) (key : String) :
    (dispatch s (Event.keydown key)).2.filterMap Effect.keyArg? = [JSVal.str key] ∧
      (dispatch s (Event.keyup key)).2.filterMap Effect.keyArg? = [JSVal.str key] ∧
      (JSVal.str key).isKeyIndex = false := by
  refine ⟨rfl, rfl, rfl⟩

/-- C6: on every `change` event of the file input, `cancelAnimationFrame` is
called exactly once, with `anim_frame`, when `anim_frame` is not 0, and not at
all when it is 0; in the calls of the listener followed by those of the
`onload` handler of the read it starts, no cancel comes after an `EmuReset` or
`EmuLoad`; the listener itself makes neither of these two calls. -/
theorem C6_cancel_previous_frame (s : Host) (files : List File) :
    (onChange s files).2.1.countP Effect.isCancel = (if s.anim_frame = 0 then 0 else 1) ∧
      (onChange s files).2.1.count (Effect.cancelAnimationFrame s.anim_frame) =
        (if s.anim_frame = 0 then 0 else 1) ∧
      (changeThenLoad s files).2.countP Effect.isCancel =
        (if s.anim_frame = 0 then 0 else 1) ∧
      noneAfter Effect.isCancel (fun e => e.isReset || e.isLoad)
        (changeThenLoad s files).2 = true ∧
      (onChange s files).2.1.countP (fun e => e.isReset || e.isLoad) = 0 := by
  obtain ⟨af, cw, ch, fs⟩ := s
  cases files with
  | nil =>
    by_cases h : af = 0
    · subst h
      simp [onChange, changeThenLoad, noneAfter, Effect.isCancel, Effect.isReset,
        Effect.isLoad]
    · simp [onChange, changeThenLoad, noneAfter, Effect.isCancel, Effect.isReset,
        Effect.isLoad, h]
  | cons f rest =>
    by_cases h : af = 0
    · subst h
      simp [onChange, changeThenLoad, fr_onload, noneAfter, Effect.isCancel,
        Effect.isReset, Effect.isLoad]
    · simp [onChange, changeThenLoad, fr_onload, noneAfter, Effect.isCancel,
        Effect.isReset, Effect.isLoad, h]

/-- C7: `WIDTH` = 64 and `HEIGHT` = 32; the top-level statements size the
canvas to `WIDTH*SCALE` by `HEIGHT*SCALE` = 960 by 480; every frame passes
`SCALE` = 15 to its one `EmuDrawScreen` call and leaves the canvas size as it
was, so 64 by 32 cells of `SCALE` pixels cover the canvas exactly. -/
theorem C7_display_geometry (s0 s : Host) (handle : Nat) :
    WIDTH = 64 ∧ HEIGHT = 32 ∧ SCALE = 15 ∧
      (boot s0).1.canvasWidth = WIDTH * SCALE ∧
      (boot s0).1.canvasHeight = HEIGHT * SCALE ∧
      (boot s0).1.canvasWidth = 960 ∧
      (boot s0).1.canvasHeight = 480 ∧
      (mainloop s handle).2.filter Effect.isDraw = [Effect.EmuDrawScreen SCALE] ∧
      (mainloop s handle).1.canvasWidth = s.canvasWidth ∧
      (mainloop s handle).1.canvasHeight = s.canvasHeight ∧
      (mainloop (boot s0).1 handle).1.canvasWidth = 64 * SCALE ∧
      (mainloop (boot s0).1 handle).1.canvasHeight = 32 * SCALE := by
  refine ⟨rfl, rfl, rfl, rfl, rfl, rfl, rfl, ?_, rfl, rfl, rfl, rfl⟩
  rw [mainloop_trace]
  decide

/-- C8: a `keydown` makes exactly one call, `EmuKeypress(evt.key, true)`, and a
`keyup` exactly one call, `EmuKeypress(evt.key, false)`, with the key of the
event passed as it is; these are the only calls of the listeners (no reset,
load, tick or draw), and the host state is left as it was. -/
theorem C8_key_event_single_keypress (s : Host) (key : String) :
    dispatch s (Event.keydown key) = (s, [Effect.EmuKeypress (JSVal.str key) true]) ∧
      dispatch s (Event.keyup key) = (s, [Effect.EmuKeypress (JSVal.str key) false]) ∧
      ((dispatch s (Event.keydown key)).2.filter Effect.isEmuCall).length = 1 ∧
      ((dispatch s (Event.keyup key)).2.filter Effect.isEmuCall).length = 1 := by
  refine ⟨rfl, rfl, rfl, rfl⟩

/-- C9: every invocation of `mainloop` makes its calls in this order: the
`TICKS_PER_FRAME` calls of `EmuTick()`; the fill style set to black and the
rectangle (0, 0, `WIDTH*SCALE`, `HEIGHT*SCALE`) filled with it; the fill style
set to white; `EmuDrawScreen(SCALE)` once; one `requestAnimationFrame`, whose
returned handle is stored in `anim_frame` and whose callback, when the browser
calls it, runs `mainloop`. -/
theorem C9_frame_order (s : Host) (handle : Nat) :
    (mainloop s handle).2 =
        List.replicate TICKS_PER_FRAME Effect.EmuTick ++
          [Effect.setFillStyle "black",
           Effect.fillRect "black" 0 0 (WIDTH * SCALE) (HEIGHT * SCALE),
           Effect.setFillStyle "white",
           Effect.EmuDrawScreen SCALE,
           Effect.requestAnimationFrame Callback.frame] ∧
      (mainloop s handle).2.countP Effect.isDraw = 1 ∧
      (mainloop s handle).2.countP Effect.isRequestFrame = 1 ∧
      (mainloop s handle).1.anim_frame = handle ∧
      (mainloop s handle).1.fillStyle = "white" ∧
      (∀ (s1 : Host) (h1 : Nat), Callback.invoke Callback.frame s1 h1 = mainloop s1 h1) := by
  refine ⟨?_, ?_, ?_, rfl, rfl, fun _ _ => rfl⟩
  · rw [mainloop_trace]
    rfl
  · rw [mainloop_trace]
    decide
  · rw [mainloop_trace]
    decide

/-- C10: on a `change` event with no file selected (`evt.target.files[0]`
missing), the listener alerts "Failed to read file" as its last call and
returns: no `FileReader` is created or left pending, no emulator call is made
(so no `EmuReset` or `EmuLoad`), and nothing follows when the event is taken
together with its reads. -/
theorem C10_no_file_selected (s : Host) (files : List File) (h : files[0]? = none) :
    (onChange s files).2.1 =
        (if s.anim_frame = 0 then [] else [Effect.cancelAnimationFrame s.anim_frame]) ++
          [Effect.alert "Failed to read file"] ∧
      (onChange s files).2.2 = none ∧
      (onChange s files).1 = s ∧
      (onChange s files).2.1.countP Effect.isNewFileReader = 0 ∧
      (onChange s files).2.1.countP Effect.isEmuCall = 0 ∧
      changeThenLoad s files = (s, (onChange s files).2.1) := by
  by_cases haf : s.anim_frame = 0
  · simp [onChange, changeThenLoad, h, haf, Effect.isNewFileReader, Effect.isEmuCall]
  · simp [onChange, changeThenLoad, h, haf, Effect.isNewFileReader, Effect.isEmuCall]

/-- C10 (witness): the page right after boot, empty file list. -/
theorem C10_no_file_selected_witness :
    ([] : List File)[0]? = none ∧
      (onChange (boot pageDefault).1 []).2.1 = [Effect.alert "Failed to read file"] ∧
      (onChange (boot pageDefault).1 []).2.2 = none := by
  have h := C10_no_file_selected (boot pageDefault).1 [] rfl
  exact ⟨rfl, by simpa [boot] using h.1, h.2.1⟩

end Chip8Host
